import Mathlib

set_option maxHeartbeats 1000000
set_option maxRecDepth 8000

/-!
Verification of the residual-heap serialization orchestrator
(src/serializer/serializer.js).

The file gives a shallow embedding of the orchestrator class: its
constructor, the private execution helper and the pipeline driver.
External collaborators (the interpreter, Logger, Modules, Functions,
the residual-heap visitor and the two serializer variants) are
represented by an oracle structure of deterministic behaviours: for
each collaborator call the oracle supplies its return value, the number
of recoverable diagnostics it logs, the number of environment records
it creates, and whether it raises.  The orchestrator itself is
translated statement by statement; source line numbers are cited in
comments.  The observable state carries the diagnostic-error count, the
execution-context stack, the environment-record identifier counter, the
reported compiler diagnostics, the forbidden-names set, an ordered
trace of collaborator calls, the error count recorded at each
hasErrors checkpoint, and the arguments handed to the independence
check, the React optimizer and the final serializer constructor.
-/

namespace PrepackSerializer

/-- Exceptions that can escape the orchestrator: the FatalError raised on
abrupt global completion, a violated internal invariant, and an exception
raised by the logging collaborator itself. -/
inductive Err where
  | fatalError
  | invariantViolation
  | loggerException
deriving DecidableEq

/-- Ordered record of the collaborator calls the orchestrator makes, in the
order it makes them. -/
inductive Event where
  | executeEv
  | pushCtxEv
  | logCompletionEv
  | popCtxEv
  | resolveModulesEv
  | checkIndependenceEv
  | reactOptEv
  | initMMEv
  | visitRootsEv
  | heapRefCountEv
  | heapGraphGenEv
  | initPass1Ev
  | pass1SerializeEv
  | initPass2Ev
  | pass2SerializeEv
  | generateEv
deriving DecidableEq

/-- The mode of the two-pass value-identifier table
(ResidualHeapValueIdentifiers): freshly constructed, counting references
during the pass-1 dry run (after initPass1), or finalized (after
initPass2). -/
inductive IdState where
  | initial
  | counting
  | finalized
deriving DecidableEq

/-- A parsed source-unit AST node.  Identifier nodes carry their name;
every other node carries a tag and its children. -/
inductive Node where
  | ident (name : String)
  | composite (tag : String) (children : List Node)

/-- Whether a node is an identifier (babel-types t.isIdentifier). -/
def isIdNode : Node → Bool
  | Node.ident _ => true
  | Node.composite _ _ => false

/-- The name of an identifier node, none otherwise. -/
def idName : Node → Option String
  | Node.ident nm => some nm
  | Node.composite _ _ => none

mutual
/-- Modelled from the spec: utils/traverse-fast.js is not under src.  The
call site in the execution helper hands the visitor a callback returning a
boolean, false for nodes to descend into and true for identifiers, so the
utility is modelled as a depth-first traversal that invokes the visitor on
every node reached and skips a node's children exactly when the visitor
returns true.  The returned list is the sequence of nodes the visitor was
invoked on. -/
def traverseFast (enter : Node → Bool) : Node → List Node
  | Node.ident nm => [Node.ident nm]
  | Node.composite tg cs =>
      Node.composite tg cs ::
        (if enter (Node.composite tg cs) then [] else traverseFastList enter cs)

/-- Traversal of a list of sibling nodes, in order. -/
def traverseFastList (enter : Node → Bool) : List Node → List Node
  | [] => []
  | n :: ns => traverseFast enter n ++ traverseFastList enter ns
end

mutual
/-- All identifier names occurring anywhere in an AST, at any depth. -/
def allIds : Node → List String
  | Node.ident nm => [nm]
  | Node.composite _ cs => allIdsList cs

/-- All identifier names occurring anywhere in a list of ASTs. -/
def allIdsList : List Node → List String
  | [] => []
  | n :: ns => allIds n ++ allIdsList ns
end

/-- The names the execution callback adds to the prelude generator's
forbidden-names set while one source unit is executed: the callback is
invoked through traverseFast and records the name of every identifier node
it is handed (serializer.js lines 77-83). -/
def collectedNames (ast : Node) : List String :=
  (traverseFast isIdNode ast).filterMap idName

/-- Configuration options of the serializer (options.js interface), with
the defaults the orchestrator relies on. -/
structure SerializerOptions where
  profile : Bool := false
  initializeMoreModules : Bool := false
  inlineExpressions : Bool := false
  logStatistics : Bool := false
  heapGraphFormat : Option String := none
  lazyObjectsRuntime : Option String := none
  internalDebug : Bool := false
  logModules : Bool := false
  delayUnsupportedRequires : Bool := false
  accelerateUnsupportedRequires : Bool := false
  trace : Bool := false
deriving DecidableEq

/-- Realm configuration read (but never written) by the pipeline. -/
structure RealmCfg where
  reactEnabled : Bool := false
  reactVerbose : Bool := false
  stripFlow : Bool := false
deriving DecidableEq

/-- The referentializer, as constructed at lines 137-143: it is built from
two fresh name generators with the stable prefixes of line 140 and
line 141. -/
structure Referentializer where
  scopeNameBase : String
  varNameBase : String
deriving DecidableEq

/-- The referentializer value the pipeline constructs (lines 137-143). -/
def mkReferentializer : Referentializer :=
  { scopeNameBase := "__scope_", varNameBase := "$" }

/-- The argument bundle handed to the serializer constructor at
lines 227-246 (and, during the dry run, at lines 199-218): the
value-identifier table with its mode, the visitor outputs, the additional
functions with their effects, the options record and the referentializer.
The chosen class (eager or lazy) is kept separately from this bundle,
mirroring the single shared argument list of the source. -/
structure SerArgs where
  idState : IdState
  visitorOut : Nat
  additionalFns : List Nat
  options : SerializerOptions
  referentializer : Referentializer
deriving DecidableEq

/-- Timing statistics; wall-clock sampling is modelled with a constant
clock since no claim concerns the sampled values, only whether and where
the fields are written. -/
structure TimingStatistics where
  totalTime : Nat := 0
  globalCodeTime : Nat := 0
  initializeMoreModulesTime : Nat := 0
  deepTraversalTime : Nat := 0
  referenceCountsTime : Nat := 0
  serializePassTime : Nat := 0
deriving DecidableEq

/-- The constant clock standing in for Date.now(). -/
def dateNow : Nat := 0

/-- What babel-generator returns: emitted source text and optional map. -/
structure Generated where
  code : String
  map : Option String
deriving DecidableEq

/-- The result bundle assembled at lines 261-268. -/
structure SerializedResult where
  code : String
  map : Option String
  reactStatistics : Option Nat
  statistics : Nat
  timingStats : Option TimingStatistics
  heapGraph : Option String
deriving DecidableEq

/-- Behaviours of the external collaborators, one field per call the
orchestrator makes.  Numbers of recoverable diagnostics logged and of
environment records created are given per call; returns are tokens. -/
structure Collab where
  /-- Whether executeSources ends in an AbruptCompletion (line 86). -/
  execAbrupt : Bool
  /-- The code map executeSources returns on normal completion. -/
  execCode : String
  /-- Recoverable diagnostics logged while the global code executes. -/
  execErrors : Nat
  /-- Environment records created while the global code executes. -/
  execEnvs : Nat
  /-- Whether logger.logCompletion itself raises (line 90). -/
  logCompletionThrows : Bool
  /-- Diagnostics logged by modules.resolveInitializedModules (line 115). -/
  resolveErrors : Nat
  /-- Environment records created by resolveInitializedModules. -/
  resolveEnvs : Nat
  /-- Whether checkThatFunctionsAreIndependent raises a fatal error. -/
  indepThrows : Bool
  /-- Environment records created while the independence check re-runs the
  additional functions (line 116). -/
  indepEnvs : Nat
  /-- Diagnostics logged by optimizeReactComponentTreeRoots (line 120). -/
  reactOptErrors : Nat
  /-- The additional-function values-and-effects map (line 131). -/
  additionalFns : List Nat
  /-- Diagnostics logged by modules.initializeMoreModules (line 125). -/
  mmErrors : Nat
  /-- Environment records created by initializeMoreModules. -/
  mmEnvs : Nat
  /-- Diagnostics logged by residualHeapVisitor.visitRoots (line 154). -/
  visitErrors : Nat
  /-- Token for the residual-heap visitor's outputs (values, inspector,
  function instances, bindings, generator parents, ...). -/
  visitorOut : Nat
  /-- Diagnostics logged by the pass-1 dry-run serialize() (line 218). -/
  pass1Errors : Nat
  /-- Diagnostics logged by the final serialize() (line 248). -/
  pass2Errors : Nat
  /-- serialize(): the AST produced by the chosen serializer class (first
  argument: the lazy variant was chosen) from its constructor bundle. -/
  serializeFn : Bool → SerArgs → Nat
  /-- stripFlowTypeAnnotations (line 250). -/
  stripFn : Nat → Nat
  /-- babel-generator generate(ast, opts, code) (line 254). -/
  generateFn : Nat → Bool → String → Generated
  /-- heapGraphGenerator.generateResult(format) given the ref-counter
  result (line 190). -/
  heapGraphFn : String → Nat → String
  /-- heapRefCounter.getResult() (line 185). -/
  refCountFn : Nat

/-- Observable orchestration state: every component some claim reads. -/
structure Obs where
  nextEnvId : Nat
  loggerErrors : Nat := 0
  contextStack : List Nat := []
  diagnostics : List (String × String) := []
  forbiddenNames : List String := []
  trace : List Event := []
  ckptLog : List Nat := []
  indepCutoffArg : Option Nat := none
  reactCutoffArg : Option Nat := none
  pass2Args : Option (Bool × SerArgs) := none
  stats : Nat := 0

/-- Auxiliary state no claim depends on (informational log lines and the
statistics console dump). -/
structure Aux where
  infoLog : List String := []
  statsLogged : Bool := false

/-- Full orchestration state. -/
structure St where
  obs : Obs
  aux : Aux

/-- The state a fresh compilation starts from, with the ambient
environment-record counter at n. -/
def mkSt (n : Nat) : St :=
  { obs := { nextEnvId := n }, aux := {} }

/-- Append one event to the call trace. -/
def addTrace (e : Event) (s : St) : St :=
  { s with obs := { s.obs with trace := s.obs.trace ++ [e] } }

/-- logger.logInformation: records an informational line only. -/
def logInformation (msg : String) (s : St) : St :=
  { s with aux := { s.aux with infoLog := s.aux.infoLog ++ [msg] } }

/-- The verbose-gated logInformation calls (lines 108-110, 144-146,
158-160). -/
def logInfoIf (b : Bool) (msg : String) (s : St) : St :=
  if b then logInformation msg s else s

/-- statistics.log() gated by the logStatistics option (line 260). -/
def logStatsIf (b : Bool) (s : St) : St :=
  if b then { s with aux := { s.aux with statsLogged := true } } else s

/-- A this.logger.hasErrors() checkpoint: the current error count is
recorded, then tested by the caller. -/
def ckpt (s : St) : St :=
  { s with obs := { s.obs with ckptLog := s.obs.ckptLog ++ [s.obs.loggerErrors] } }

/-- realm.pushContext (line 88). -/
def pushContext (ctx : Nat) (s : St) : St :=
  { s with obs := { s.obs with contextStack := ctx :: s.obs.contextStack,
                               trace := s.obs.trace ++ [Event.pushCtxEv] } }

/-- realm.popContext (line 92, in the finally block). -/
def popContextS (s : St) : St :=
  { s with obs := { s.obs with contextStack := s.obs.contextStack.tail,
                               trace := s.obs.trace ++ [Event.popCtxEv] } }

/-- Timing setup (lines 103-107). -/
def profStart (b : Bool) : Option TimingStatistics :=
  if b then some { totalTime := dateNow, globalCodeTime := dateNow } else none

/-- Line 113. -/
def stopGlobalCode : Option TimingStatistics → Option TimingStatistics
  | some t => some { t with globalCodeTime := dateNow - t.globalCodeTime }
  | none => none

/-- Line 124. -/
def startMM : Option TimingStatistics → Option TimingStatistics
  | some t => some { t with initializeMoreModulesTime := dateNow }
  | none => none

/-- Lines 127-128. -/
def stopMM : Option TimingStatistics → Option TimingStatistics
  | some t => some { t with initializeMoreModulesTime := dateNow - t.initializeMoreModulesTime }
  | none => none

/-- Line 134. -/
def startDeep : Option TimingStatistics → Option TimingStatistics
  | some t => some { t with deepTraversalTime := dateNow }
  | none => none

/-- Line 156. -/
def stopDeep : Option TimingStatistics → Option TimingStatistics
  | some t => some { t with deepTraversalTime := dateNow - t.deepTraversalTime }
  | none => none

/-- Line 197. -/
def startRef : Option TimingStatistics → Option TimingStatistics
  | some t => some { t with referenceCountsTime := dateNow }
  | none => none

/-- Line 220. -/
def stopRef : Option TimingStatistics → Option TimingStatistics
  | some t => some { t with referenceCountsTime := dateNow - t.referenceCountsTime }
  | none => none

/-- Line 225. -/
def startSer : Option TimingStatistics → Option TimingStatistics
  | some t => some { t with serializePassTime := dateNow }
  | none => none

/-- Lines 255-258. -/
def stopSerTotal : Option TimingStatistics → Option TimingStatistics
  | some t => some { t with serializePassTime := dateNow - t.serializePassTime,
                            totalTime := dateNow - t.totalTime }
  | none => none

/-- modules.resolveInitializedModules (line 115). -/
def resolveModulesStep (c : Collab) (s : St) : St :=
  { s with obs := { s.obs with
      trace := s.obs.trace ++ [Event.resolveModulesEv],
      loggerErrors := s.obs.loggerErrors + c.resolveErrors,
      nextEnvId := s.obs.nextEnvId + c.resolveEnvs } }

/-- functions.checkThatFunctionsAreIndependent(cutoff) (line 116): the
cutoff argument the orchestrator passes is recorded. -/
def checkIndependenceStep (c : Collab) (cutoff : Nat) (s : St) : St :=
  { s with obs := { s.obs with
      trace := s.obs.trace ++ [Event.checkIndependenceEv],
      indepCutoffArg := some cutoff,
      nextEnvId := s.obs.nextEnvId + c.indepEnvs } }

/-- functions.optimizeReactComponentTreeRoots(stats, react, cutoff)
(lines 118-121), run only when the realm has React enabled. -/
def reactStep (c : Collab) (rc : RealmCfg) (cutoff : Nat) (s : St) : St :=
  if rc.reactEnabled then
    { s with obs := { s.obs with
        trace := s.obs.trace ++ [Event.reactOptEv],
        reactCutoffArg := some cutoff,
        loggerErrors := s.obs.loggerErrors + c.reactOptErrors } }
  else s

/-- modules.initializeMoreModules (line 125). -/
def mmStep (c : Collab) (s : St) : St :=
  { s with obs := { s.obs with
      trace := s.obs.trace ++ [Event.initMMEv],
      loggerErrors := s.obs.loggerErrors + c.mmErrors,
      nextEnvId := s.obs.nextEnvId + c.mmEnvs } }

/-- residualHeapVisitor.visitRoots (line 154). -/
def visitStep (c : Collab) (s : St) : St :=
  { s with obs := { s.obs with
      trace := s.obs.trace ++ [Event.visitRootsEv],
      loggerErrors := s.obs.loggerErrors + c.visitErrors } }

/-- The serializer-constructor argument bundle of lines 227-246, shared
verbatim with the dry-run construction of lines 199-218. -/
def mkSerArgs (idState : IdState) (c : Collab) (o : SerializerOptions) : SerArgs :=
  { idState := idState
    visitorOut := c.visitorOut
    additionalFns := c.additionalFns
    options := o
    referentializer := mkReferentializer }

/-- The pass-1 dry-run serialize() call (lines 199-218): its produced AST
is discarded; diagnostics it logs accumulate. -/
def pass1Step (c : Collab) (s : St) : St :=
  { s with obs := { s.obs with
      trace := s.obs.trace ++ [Event.pass1SerializeEv],
      loggerErrors := s.obs.loggerErrors + c.pass1Errors } }

/-- The final serializer construction and serialize() call (lines 227-248):
the chosen class and the argument bundle handed to its constructor are
recorded, and diagnostics logged while serializing accumulate. -/
def pass2Step (lazyVariant : Bool) (args : SerArgs) (c : Collab) (s : St) : St :=
  { s with obs := { s.obs with
      trace := s.obs.trace ++ [Event.pass2SerializeEv],
      pass2Args := some (lazyVariant, args),
      loggerErrors := s.obs.loggerErrors + c.pass2Errors } }

/-- Modelled from the spec: ResidualHeapRefCounter and
ResidualHeapGraphGenerator are not under src; per the spec's Heap Graph
Exporter description they form an independent read-only pass that does not
affect the emitted program, so they are modelled as producing the graph
artifact without touching any observable state other than the call
trace. -/
def heapGraphVal (o : SerializerOptions) (c : Collab) : Option String :=
  match o.heapGraphFormat with
  | some fmt => some (c.heapGraphFn fmt c.refCountFn)
  | none => none

/-- The trace footprint of the optional heap-graph block (lines 168-191):
heapRefCounter.visitRoots then heapGraphGenerator.visitRoots. -/
def heapGraphTraceStep (o : SerializerOptions) (s : St) : St :=
  match o.heapGraphFormat with
  | some _ => addTrace Event.heapGraphGenEv (addTrace Event.heapRefCountEv s)
  | none => s

/-- The state executeSources leaves behind (lines 74-84): the source
units run, the traverseFast callback is handed every parsed AST so that
each identifier name reached lands in the prelude generator's
forbidden-names set, and recoverable diagnostics and environment-record
creations accumulate. -/
def execState (c : Collab) (srcs : List Node) (s : St) : St :=
  { s with obs := { s.obs with
      trace := s.obs.trace ++ [Event.executeEv],
      forbiddenNames := s.obs.forbiddenNames ++ (srcs.map collectedNames).flatten,
      loggerErrors := s.obs.loggerErrors + c.execErrors,
      nextEnvId := s.obs.nextEnvId + c.execEnvs } }

/-- The private execution helper (lines 72-99).  On an AbruptCompletion
(lines 86-97) a synthetic execution context is pushed, the completion is
logged (the logger call itself may raise), the context is popped in a
finally block, and when logging returned normally a CompilerDiagnostic
with error code PP0016 and severity FatalError is reported before a
FatalError is thrown. -/
def execPhase (c : Collab) (srcs : List Node) (s : St) : Except Err String × St :=
  let s := execState c srcs s
  if c.execAbrupt then
    let s := pushContext 0 s
    let s := addTrace Event.logCompletionEv s
    if c.logCompletionThrows then
      (Except.error Err.loggerException, popContextS s)
    else
      let s := popContextS s
      let s := { s with obs := { s.obs with
          diagnostics := s.obs.diagnostics ++ [("PP0016", "FatalError")] } }
      (Except.error Err.fatalError, s)
  else
    (Except.ok c.execCode, s)

/-- The final serialization pass and result assembly (lines 224-268): the
class is the lazy variant exactly when lazyObjectsRuntime is non-null
(line 226); the serializer is constructed from the shared argument bundle
and run; flow type annotations are stripped when the realm asks for it;
babel-generator emits text and map; an invariant demands the diagnostic
log be error-free (line 259); the result bundle is assembled. -/
def pass2Phase (c : Collab) (o : SerializerOptions) (rc : RealmCfg)
    (sourceMaps : Bool) (code : String) (idState : IdState)
    (heapGraph : Option String) (reactStatistics : Option Nat)
    (ts : Option TimingStatistics) (s : St) :
    Except Err (Option SerializedResult) × St :=
  let ts := startSer ts
  let lazyVariant := o.lazyObjectsRuntime.isSome
  let args := mkSerArgs idState c o
  let s := pass2Step lazyVariant args c s
  let ast := c.serializeFn lazyVariant args
  let ast1 := if rc.stripFlow then c.stripFn ast else ast
  let generated := c.generateFn ast1 sourceMaps code
  let s := addTrace Event.generateEv s
  let ts := stopSerTotal ts
  if s.obs.loggerErrors > 0 then (Except.error Err.invariantViolation, s)
  else
    let s := logStatsIf o.logStatistics s
    (Except.ok (some
      { code := generated.code
        map := generated.map
        reactStatistics := reactStatistics
        statistics := s.obs.stats
        timingStats := ts
        heapGraph := heapGraph }), s)

/-- The pipeline from line 131 on: fetch the additional-function effects,
build the referentializer, visit the residual heap with its error
checkpoint (lines 147-156), build the optional heap graph (lines 168-191),
run the optional pass-1 reference-counting protocol (lines 196-222), and
finish with the final serialization pass. -/
def initAfterModules (c : Collab) (o : SerializerOptions) (rc : RealmCfg)
    (sourceMaps : Bool) (code : String) (reactStatistics : Option Nat)
    (ts : Option TimingStatistics) (s : St) :
    Except Err (Option SerializedResult) × St :=
  let ts := startDeep ts
  let s := logInfoIf rc.reactVerbose "Visiting evaluated nodes..." s
  let s := visitStep c s
  let s := ckpt s
  if s.obs.loggerErrors > 0 then (Except.ok none, s)
  else
    let ts := stopDeep ts
    let s := logInfoIf rc.reactVerbose "Serializing evaluated nodes..." s
    let heapGraph := heapGraphVal o c
    let s := heapGraphTraceStep o s
    if o.inlineExpressions then
      let ts := startRef ts
      let s := addTrace Event.initPass1Ev s
      let args1 := mkSerArgs IdState.counting c o
      let _dryRunAst := c.serializeFn false args1
      let s := pass1Step c s
      let s := ckpt s
      if s.obs.loggerErrors > 0 then (Except.ok none, s)
      else
        let ts := stopRef ts
        let s := addTrace Event.initPass2Ev s
        pass2Phase c o rc sourceMaps code IdState.finalized heapGraph reactStatistics ts s
    else
      pass2Phase c o rc sourceMaps code IdState.initial heapGraph reactStatistics ts s

/-- The pipeline driver init (lines 101-269): timing setup, execution of
the global code, recording of the environment-record counter immediately
afterwards (line 112), the post-execution error checkpoint (line 114),
module resolution, the independence check and the optional React
optimization fed with the recorded cutoff, the optional
initializeMoreModules round with its own checkpoint (lines 123-129), and
the rest of the pipeline. -/
def init (c : Collab) (o : SerializerOptions) (rc : RealmCfg)
    (srcs : List Node) (sourceMaps : Bool) (s : St) :
    Except Err (Option SerializedResult) × St :=
  let ts := profStart o.profile
  let s := logInfoIf rc.reactVerbose "Evaluating initialization path..." s
  match execPhase c srcs s with
  | (Except.error e, s1) => (Except.error e, s1)
  | (Except.ok code, s1) =>
    let environmentRecordIdAfterGlobalCode := s1.obs.nextEnvId
    let ts := stopGlobalCode ts
    let s2 := ckpt s1
    if s2.obs.loggerErrors > 0 then (Except.ok none, s2)
    else
      let s3 := resolveModulesStep c s2
      let s4 := checkIndependenceStep c environmentRecordIdAfterGlobalCode s3
      if c.indepThrows then (Except.error Err.fatalError, s4)
      else
        let reactStatistics : Option Nat := if rc.reactEnabled then some 0 else none
        let s5 := reactStep c rc environmentRecordIdAfterGlobalCode s4
        if o.initializeMoreModules then
          let ts1 := startMM ts
          let s6 := mmStep c s5
          let s7 := ckpt s6
          if s7.obs.loggerErrors > 0 then (Except.ok none, s7)
          else
            let ts2 := stopMM ts1
            initAfterModules c o rc sourceMaps code reactStatistics ts2 s7
        else
          initAfterModules c o rc sourceMaps code reactStatistics ts s5

/-- A full pipeline run from a fresh compilation state whose ambient
environment-record counter starts at n. -/
def runInit (c : Collab) (o : SerializerOptions) (rc : RealmCfg)
    (srcs : List Node) (sourceMaps : Bool) (n : Nat) :
    Except Err (Option SerializedResult) × St :=
  init c o rc srcs sourceMaps (mkSt n)

/-- The realm as the constructor sees it (lines 39-62). -/
structure RealmObj where
  useAbstractInterpretation : Bool
  generator : Option String := none
  tracersCount : Nat := 0
deriving DecidableEq

/-- The Serializer constructor (lines 39-62): its first statement is the
invariant that the realm uses abstract interpretation, which raises before
anything else happens; then a fresh mutation-tracking Generator named
"main" is installed as the realm's generator, the collaborators are built,
and when the trace option is set a LoggingTracer is attached.  All of this
happens before init, hence before any sources are executed. -/
def construct (realm : RealmObj) (o : SerializerOptions) :
    Except Err Unit × RealmObj :=
  if realm.useAbstractInterpretation = false then
    (Except.error Err.invariantViolation, realm)
  else
    (Except.ok (),
      { realm with
          generator := some "main",
          tracersCount := realm.tracersCount + (if o.trace then 1 else 0) })

/-- A residual value's naming decision. -/
inductive NamingDecision where
  | inlineAtUse
  | namedBinding
deriving DecidableEq

/-- Modelled from the spec: the naming decision made from the
value-identifier table's mode and a value's reference count (the table's
internals are not under src).  Per the spec, a finalized count of exactly
one lets the value be inlined at its use site; otherwise, and in
particular whenever the table never went through the two-pass protocol,
every multi-use-candidate value conservatively gets a named binding. -/
def decideNaming : IdState → Nat → NamingDecision
  | IdState.finalized, 1 => NamingDecision.inlineAtUse
  | IdState.finalized, _ => NamingDecision.namedBinding
  | _, _ => NamingDecision.namedBinding

/-- Boolean subsequence test on lists with decidable equality. -/
def isSubseqB {α : Type} [DecidableEq α] : List α → List α → Bool
  | [], _ => true
  | _ :: _, [] => false
  | a :: as, b :: bs => if a = b then isSubseqB as bs else isSubseqB (a :: as) bs

/-- The one global order the pipeline's collaborator calls obey: every
run's trace is a subsequence of this word. -/
def masterOrder : List Event :=
  [Event.executeEv, Event.pushCtxEv, Event.logCompletionEv, Event.popCtxEv,
   Event.resolveModulesEv, Event.checkIndependenceEv, Event.reactOptEv,
   Event.initMMEv, Event.visitRootsEv, Event.heapRefCountEv,
   Event.heapGraphGenEv, Event.initPass1Ev, Event.pass1SerializeEv,
   Event.initPass2Ev, Event.pass2SerializeEv, Event.generateEv]

/-- Erase the heap-graph artifact from a pipeline outcome, leaving every
other component in place. -/
def scrubResult (r : Except Err (Option SerializedResult)) :
    Except Err (Option SerializedResult) :=
  match r with
  | Except.ok (some res) => Except.ok (some { res with heapGraph := none })
  | x => x

/-- A concrete collaborator behaviour used to exercise the theorems on a
successful compilation. -/
def collabBase : Collab :=
  { execAbrupt := false
    execCode := "codemap"
    execErrors := 0
    execEnvs := 2
    logCompletionThrows := false
    resolveErrors := 0
    resolveEnvs := 1
    indepThrows := false
    indepEnvs := 3
    reactOptErrors := 0
    additionalFns := []
    mmErrors := 0
    mmEnvs := 0
    visitErrors := 0
    visitorOut := 7
    pass1Errors := 0
    pass2Errors := 0
    serializeFn := fun _ _ => 5
    stripFn := fun a => a + 1
    generateFn := fun _ sm _ => { code := "emitted", map := if sm then some "m" else none }
    heapGraphFn := fun fmt _ => fmt
    refCountFn := 3 }

/-- A configuration with every optional phase enabled. -/
def optsAll : SerializerOptions :=
  { profile := true
    initializeMoreModules := true
    inlineExpressions := true
    logStatistics := true
    heapGraphFormat := some "dot"
    lazyObjectsRuntime := some "rt" }

/-- A realm with React enabled, verbose logging and flow stripping. -/
def rcAll : RealmCfg :=
  { reactEnabled := true, reactVerbose := true, stripFlow := true }

/-- The all-defaults configuration. -/
def optsNone : SerializerOptions := {}

/-- The all-defaults realm configuration. -/
def rcNone : RealmCfg := {}

mutual
/-- The names the execution callback collects from one AST are exactly the
identifier names occurring in it, at any depth. -/
theorem collectedNames_eq : ∀ n : Node, collectedNames n = allIds n
  | Node.ident nm => by
      simp [collectedNames, traverseFast, idName, allIds]
  | Node.composite tg cs => by
      simp only [collectedNames, traverseFast, isIdNode, if_neg, allIds,
        List.filterMap_cons, idName]
      exact collectedNamesList_eq cs

/-- List version of collectedNames_eq. -/
theorem collectedNamesList_eq :
    ∀ ns : List Node,
      (traverseFastList isIdNode ns).filterMap idName = allIdsList ns
  | [] => by simp [traverseFastList, allIdsList]
  | n :: ns => by
      simp only [traverseFastList, allIdsList, List.filterMap_append]
      have h1 := collectedNames_eq n
      simp only [collectedNames] at h1
      rw [h1, collectedNamesList_eq ns]
end

/-- Informational log lines leave the observable state untouched. -/
@[simp] theorem logInfoIf_obs (b : Bool) (m : String) (s : St) :
    (logInfoIf b m s).obs = s.obs := by
  cases b <;> simp [logInfoIf, logInformation]

/-- The statistics console dump leaves the observable state untouched. -/
@[simp] theorem logStatsIf_obs (b : Bool) (s : St) :
    (logStatsIf b s).obs = s.obs := by
  cases b <;> simp [logStatsIf]

/-- The observable part of a fresh compilation state. -/
@[simp] theorem mkSt_obs (n : Nat) : (mkSt n).obs = { nextEnvId := n } := rfl

/-- Observable footprint of addTrace. -/
@[simp] theorem addTrace_obs (e : Event) (s : St) :
    (addTrace e s).obs = { s.obs with trace := s.obs.trace ++ [e] } := rfl

/-- Observable footprint of a hasErrors checkpoint. -/
@[simp] theorem ckpt_obs (s : St) :
    (ckpt s).obs
      = { s.obs with ckptLog := s.obs.ckptLog ++ [s.obs.loggerErrors] } := rfl

/-- Observable footprint of pushContext. -/
@[simp] theorem pushContext_obs (ctx : Nat) (s : St) :
    (pushContext ctx s).obs
      = { s.obs with contextStack := ctx :: s.obs.contextStack,
                     trace := s.obs.trace ++ [Event.pushCtxEv] } := rfl

/-- Observable footprint of popContext. -/
@[simp] theorem popContextS_obs (s : St) :
    (popContextS s).obs
      = { s.obs with contextStack := s.obs.contextStack.tail,
                     trace := s.obs.trace ++ [Event.popCtxEv] } := rfl

/-- Observable footprint of resolveInitializedModules. -/
@[simp] theorem resolveModulesStep_obs (c : Collab) (s : St) :
    (resolveModulesStep c s).obs
      = { s.obs with trace := s.obs.trace ++ [Event.resolveModulesEv],
                     loggerErrors := s.obs.loggerErrors + c.resolveErrors,
                     nextEnvId := s.obs.nextEnvId + c.resolveEnvs } := rfl

/-- Observable footprint of the independence check. -/
@[simp] theorem checkIndependenceStep_obs (c : Collab) (cutoff : Nat) (s : St) :
    (checkIndependenceStep c cutoff s).obs
      = { s.obs with trace := s.obs.trace ++ [Event.checkIndependenceEv],
                     indepCutoffArg := some cutoff,
                     nextEnvId := s.obs.nextEnvId + c.indepEnvs } := rfl

/-- Observable footprint of the React optimization call. -/
@[simp] theorem reactStep_obs (c : Collab) (rc : RealmCfg) (cutoff : Nat) (s : St) :
    (reactStep c rc cutoff s).obs
      = if rc.reactEnabled then
          { s.obs with trace := s.obs.trace ++ [Event.reactOptEv],
                       reactCutoffArg := some cutoff,
                       loggerErrors := s.obs.loggerErrors + c.reactOptErrors }
        else s.obs := by
  unfold reactStep; split <;> rfl

/-- Observable footprint of initializeMoreModules. -/
@[simp] theorem mmStep_obs (c : Collab) (s : St) :
    (mmStep c s).obs
      = { s.obs with trace := s.obs.trace ++ [Event.initMMEv],
                     loggerErrors := s.obs.loggerErrors + c.mmErrors,
                     nextEnvId := s.obs.nextEnvId + c.mmEnvs } := rfl

/-- Observable footprint of visitRoots. -/
@[simp] theorem visitStep_obs (c : Collab) (s : St) :
    (visitStep c s).obs
      = { s.obs with trace := s.obs.trace ++ [Event.visitRootsEv],
                     loggerErrors := s.obs.loggerErrors + c.visitErrors } := rfl

/-- Observable footprint of the pass-1 dry-run serialize call. -/
@[simp] theorem pass1Step_obs (c : Collab) (s : St) :
    (pass1Step c s).obs
      = { s.obs with trace := s.obs.trace ++ [Event.pass1SerializeEv],
                     loggerErrors := s.obs.loggerErrors + c.pass1Errors } := rfl

/-- Observable footprint of the final serializer construction and run. -/
@[simp] theorem pass2Step_obs (lz : Bool) (args : SerArgs) (c : Collab) (s : St) :
    (pass2Step lz args c s).obs
      = { s.obs with trace := s.obs.trace ++ [Event.pass2SerializeEv],
                     pass2Args := some (lz, args),
                     loggerErrors := s.obs.loggerErrors + c.pass2Errors } := rfl

/-- Observable footprint of the heap-graph block's collaborator calls. -/
@[simp] theorem heapGraphTraceStep_obs (o : SerializerOptions) (s : St) :
    (heapGraphTraceStep o s).obs
      = { s.obs with trace := s.obs.trace ++
            (if o.heapGraphFormat.isSome then
              [Event.heapRefCountEv, Event.heapGraphGenEv] else []) } := by
  unfold heapGraphTraceStep
  rcases h : o.heapGraphFormat with _ | f <;> simp [h, addTrace]

/-- Observable footprint of executeSources. -/
@[simp] theorem execState_obs (c : Collab) (srcs : List Node) (s : St) :
    (execState c srcs s).obs
      = { s.obs with
          trace := s.obs.trace ++ [Event.executeEv],
          forbiddenNames := s.obs.forbiddenNames ++ (srcs.map collectedNames).flatten,
          loggerErrors := s.obs.loggerErrors + c.execErrors,
          nextEnvId := s.obs.nextEnvId + c.execEnvs } := rfl

/-- On normal completion the execution helper returns the code map and the
post-execution state. -/
theorem execPhase_normal (c : Collab) (srcs : List Node) (s : St)
    (h : c.execAbrupt = false) :
    execPhase c srcs s = (Except.ok c.execCode, execState c srcs s) := by
  simp [execPhase, h]

/-- C10: during execution of the source units, every identifier name
appearing anywhere in each source unit's parsed AST, at any nesting depth,
is added to the prelude generator's forbidden-names set. -/
theorem c10_forbidden_names (c : Collab) (srcs : List Node) (s : St) :
    ∀ ast ∈ srcs, ∀ nm ∈ allIds ast,
      nm ∈ (execPhase c srcs s).2.obs.forbiddenNames := by
  intro ast hast nm hnm
  have hmem : nm ∈ (srcs.map collectedNames).flatten := by
    refine List.mem_flatten.mpr ⟨collectedNames ast, ?_, ?_⟩
    · exact List.mem_map_of_mem _ hast
    · rw [collectedNames_eq]; exact hnm
  cases hA : c.execAbrupt <;> cases hL : c.logCompletionThrows <;>
    simp [execPhase, hA, hL, pushContext, popContextS, addTrace, hmem]

/-- Witness for C10 on a concrete source unit with an identifier nested
two levels deep. -/
theorem c10_forbidden_names_witness :
    "deepName" ∈ (execPhase collabBase
      [Node.composite "Program"
        [Node.composite "VarDecl"
          [Node.ident "x", Node.composite "Obj" [Node.ident "deepName"]]]]
      (mkSt 0)).2.obs.forbiddenNames :=
  c10_forbidden_names collabBase _ (mkSt 0) _ (List.mem_cons_self _ _) "deepName"
    (by simp [allIds, allIdsList])

/-- C9: constructing a Serializer for a realm without abstract
interpretation fails with an invariant violation before any other effect
(the realm is returned untouched); on a realm with abstract interpretation
the constructor succeeds and installs a fresh Generator named main as the
realm's generator — and construction precedes init, so this happens before
any sources are executed. -/
theorem c9_constructor (realm : RealmObj) (o : SerializerOptions) :
    (realm.useAbstractInterpretation = false →
        construct realm o = (Except.error Err.invariantViolation, realm)) ∧
    (realm.useAbstractInterpretation = true →
        (construct realm o).1 = Except.ok () ∧
        (construct realm o).2.generator = some "main") := by
  constructor <;> intro h <;> simp [construct, h]

/-- Witness for C9 at a concrete realm of each kind. -/
theorem c9_constructor_witness :
    construct { useAbstractInterpretation := false } optsNone
        = (Except.error Err.invariantViolation, { useAbstractInterpretation := false }) ∧
    (construct { useAbstractInterpretation := true } optsNone).1 = Except.ok () ∧
    (construct { useAbstractInterpretation := true } optsNone).2.generator = some "main" :=
  ⟨(c9_constructor { useAbstractInterpretation := false } optsNone).1 rfl,
   (c9_constructor { useAbstractInterpretation := true } optsNone).2 rfl⟩

/-- C1: the pipeline is a function of its inputs — every phase is a
deterministic step on the prior state, so two runs of init on the same
source units, options and initial state return byte-identical emitted
source text (indeed identical result bundles). -/
theorem c1_deterministic (c : Collab) (o : SerializerOptions) (rc : RealmCfg)
    (srcs : List Node) (sm : Bool) (n : Nat)
    (hnormal : c.execAbrupt = false) (hnofns : c.additionalFns = [])
    (r1 r2 : SerializedResult)
    (h1 : (runInit c o rc srcs sm n).1 = Except.ok (some r1))
    (h2 : (runInit c o rc srcs sm n).1 = Except.ok (some r2)) :
    r1.code = r2.code ∧ r1 = r2 := by
  rw [h1] at h2
  simp only [Except.ok.injEq, Option.some.injEq] at h2
  exact ⟨by rw [h2], h2⟩

/-- Witness for C1: a concrete successful run compared with itself. -/
theorem c1_deterministic_witness :
    ("emitted" : String) = "emitted" ∧
    ({ code := "emitted", map := none, reactStatistics := none, statistics := 0,
       timingStats := none, heapGraph := none } : SerializedResult)
      = { code := "emitted", map := none, reactStatistics := none, statistics := 0,
          timingStats := none, heapGraph := none } :=
  c1_deterministic collabBase optsNone rcNone [] false 0 rfl rfl _ _ rfl rfl

/-- C2 (amended): on abrupt global completion the orchestrator pushes a
synthetic execution context, invokes the logger on the completion, and
pops the context unconditionally — even when logging throws, in which case
the logging exception propagates and no diagnostic is reported; when
logging returns normally, a compiler diagnostic with the stable error code
PP0016 is reported and a FatalError is thrown; in every case no part of
the pipeline after execution runs and no result value is produced. -/
theorem c2_abrupt_completion (c : Collab) (o : SerializerOptions)
    (rc : RealmCfg) (srcs : List Node) (sm : Bool) (n : Nat)
    (habrupt : c.execAbrupt = true) :
    ((runInit c o rc srcs sm n).2.obs.contextStack = [] ∧
      isSubseqB [Event.pushCtxEv, Event.logCompletionEv, Event.popCtxEv]
        (runInit c o rc srcs sm n).2.obs.trace = true) ∧
    (c.logCompletionThrows = false →
      (runInit c o rc srcs sm n).1 = Except.error Err.fatalError ∧
      ("PP0016", "FatalError") ∈ (runInit c o rc srcs sm n).2.obs.diagnostics) ∧
    (c.logCompletionThrows = true →
      (runInit c o rc srcs sm n).1 = Except.error Err.loggerException) ∧
    (∀ r, (runInit c o rc srcs sm n).1 ≠ Except.ok r) ∧
    Event.resolveModulesEv ∉ (runInit c o rc srcs sm n).2.obs.trace ∧
    Event.visitRootsEv ∉ (runInit c o rc srcs sm n).2.obs.trace ∧
    Event.pass2SerializeEv ∉ (runInit c o rc srcs sm n).2.obs.trace ∧
    Event.generateEv ∉ (runInit c o rc srcs sm n).2.obs.trace := by
  cases hL : c.logCompletionThrows <;>
    simp [runInit, init, execPhase, habrupt, hL, mkSt, pushContext, popContextS,
      addTrace, isSubseqB]

/-- Witness for C2 on a concrete abrupt execution (logging succeeding). -/
theorem c2_abrupt_completion_witness :
    (runInit { collabBase with execAbrupt := true } optsNone rcNone [] false 0).1
        = Except.error Err.fatalError ∧
    ("PP0016", "FatalError") ∈
      (runInit { collabBase with execAbrupt := true } optsNone rcNone
        [] false 0).2.obs.diagnostics :=
  (c2_abrupt_completion { collabBase with execAbrupt := true } optsNone rcNone
    [] false 0 rfl).2.1 rfl

/-- C2 counterexample to the claim as stated: when the logger call itself
throws, the context is still popped but no PP0016 diagnostic is reported
and the exception that escapes is the logger's, not the FatalError the
claim promises. -/
theorem c2_counterexample :
    (runInit { collabBase with execAbrupt := true, logCompletionThrows := true }
        optsNone rcNone [] false 0).2.obs.diagnostics = [] ∧
    (runInit { collabBase with execAbrupt := true, logCompletionThrows := true }
        optsNone rcNone [] false 0).1 ≠ Except.error Err.fatalError ∧
    (runInit { collabBase with execAbrupt := true, logCompletionThrows := true }
        optsNone rcNone [] false 0).2.obs.contextStack = [] := by
  refine ⟨rfl, ?_, rfl⟩
  intro h
  simp [runInit, init, execPhase, collabBase, mkSt, pushContext, popContextS,
    addTrace, logInfoIf, rcNone, optsNone] at h

/-- C5: immediately after the global code executes normally, the pipeline
records the environment-record identifier counter (here n plus the records
execution created), and exactly that recorded value — not the later,
further-bumped counter — is the cutoff passed both to the independence
check and to the React component-tree-root optimization. -/
theorem c5_cutoff_recorded (c : Collab) (o : SerializerOptions) (rc : RealmCfg)
    (srcs : List Node) (sm : Bool) (n : Nat)
    (h1 : c.execAbrupt = false) (h2 : c.execErrors = 0) :
    (execPhase c srcs (mkSt n)).2.obs.nextEnvId = n + c.execEnvs ∧
    (runInit c o rc srcs sm n).2.obs.indepCutoffArg = some (n + c.execEnvs) ∧
    (c.indepThrows = false → rc.reactEnabled = true →
      (runInit c o rc srcs sm n).2.obs.reactCutoffArg = some (n + c.execEnvs)) := by
  refine ⟨by simp [execPhase, h1], ?_, ?_⟩
  · cases hRE : rc.reactEnabled <;> cases hMM : o.initializeMoreModules <;>
      cases hIE : o.inlineExpressions <;> by_cases hIT : c.indepThrows <;>
      simp [runInit, init, initAfterModules, pass2Phase, execPhase, h1, h2,
        hRE, hMM, hIE, hIT] <;>
      split_ifs <;> simp_all
  · intro hIT hRE
    cases hMM : o.initializeMoreModules <;> cases hIE : o.inlineExpressions <;>
      simp [runInit, init, initAfterModules, pass2Phase, execPhase, h1, h2,
        hRE, hMM, hIE, hIT] <;>
      split_ifs <;> simp_all

/-- Witness for C5 on a concrete run in which module resolution and the
independence check create further environment records. -/
theorem c5_cutoff_recorded_witness :
    (execPhase collabBase [] (mkSt 10)).2.obs.nextEnvId = 10 + 2 ∧
    (runInit collabBase optsAll rcAll [] false 10).2.obs.indepCutoffArg = some (10 + 2) ∧
    (collabBase.indepThrows = false → rcAll.reactEnabled = true →
      (runInit collabBase optsAll rcAll [] false 10).2.obs.reactCutoffArg = some (10 + 2)) :=
  c5_cutoff_recorded collabBase optsAll rcAll [] false 10 rfl rfl

/-- Helper for C3: a run that returns a result bundle ends with an
error-free diagnostic log (the line 259 invariant would raise otherwise). -/
theorem resultImpliesNoErrors (c : Collab) (o : SerializerOptions) (rc : RealmCfg)
    (srcs : List Node) (sm : Bool) (n : Nat) :
    ∀ r, (runInit c o rc srcs sm n).1 = Except.ok (some r) →
      (runInit c o rc srcs sm n).2.obs.loggerErrors = 0 := by
  intro r h
  cases hA : c.execAbrupt
  case false =>
    cases hRE : rc.reactEnabled <;> cases hMM : o.initializeMoreModules <;>
      cases hIE : o.inlineExpressions <;> by_cases hIT : c.indepThrows <;>
      simp [runInit, init, initAfterModules, pass2Phase, execPhase,
        hA, hRE, hMM, hIE, hIT] at h ⊢ <;>
      split_ifs at h ⊢ <;> simp_all
  case true =>
    cases hL : c.logCompletionThrows <;>
      simp [runInit, init, execPhase, hA, hL] at h

/-- Helper for C3: a positive error count recorded at any reached
hasErrors checkpoint makes init return undefined on the spot. -/
theorem ckptPositiveImpliesNone (c : Collab) (o : SerializerOptions) (rc : RealmCfg)
    (srcs : List Node) (sm : Bool) (n : Nat) :
    ∀ e ∈ (runInit c o rc srcs sm n).2.obs.ckptLog, 0 < e →
      (runInit c o rc srcs sm n).1 = Except.ok none := by
  intro e he hpos
  cases hA : c.execAbrupt
  case false =>
    cases hRE : rc.reactEnabled <;> cases hMM : o.initializeMoreModules <;>
      cases hIE : o.inlineExpressions <;> by_cases hIT : c.indepThrows <;>
      simp [runInit, init, initAfterModules, pass2Phase, execPhase,
        hA, hRE, hMM, hIE, hIT] at he ⊢ <;>
      split_ifs at he ⊢ <;> simp_all
  case true =>
    cases hL : c.logCompletionThrows <;>
      simp [runInit, init, execPhase, hA, hL] at he

/-- C3: whenever init returns a result bundle the diagnostic log holds no
errors at the moment of return, and whenever the log holds errors at one
of the orchestrator's checkpoints (after execution, after optional module
initialization, after heap visitation, after the pass-1 dry run) init
returns undefined instead of emitted code. -/
theorem c3_error_checkpoints (c : Collab) (o : SerializerOptions) (rc : RealmCfg)
    (srcs : List Node) (sm : Bool) (n : Nat) :
    (∀ r, (runInit c o rc srcs sm n).1 = Except.ok (some r) →
      (runInit c o rc srcs sm n).2.obs.loggerErrors = 0) ∧
    (∀ e ∈ (runInit c o rc srcs sm n).2.obs.ckptLog, 0 < e →
      (runInit c o rc srcs sm n).1 = Except.ok none) :=
  ⟨resultImpliesNoErrors c o rc srcs sm n, ckptPositiveImpliesNone c o rc srcs sm n⟩

/-- Witness for C3: a run in which heap visitation logs one error records
a positive count at the third checkpoint and returns undefined. -/
theorem c3_error_checkpoints_witness :
    (runInit { collabBase with visitErrors := 1 } optsNone rcNone [] false 0).1
      = Except.ok none :=
  (c3_error_checkpoints { collabBase with visitErrors := 1 } optsNone rcNone
      [] false 0).2 1 (by simp [runInit, init, initAfterModules, execPhase,
        collabBase, optsNone, rcNone]) (by decide)

/-- C4: the two-pass reference-counting protocol (initPass1, a dry-run
serialization whose AST is discarded, then initPass2) runs only when the
inlineExpressions option is enabled; with it disabled no pass-1
serialization occurs and the single final pass runs with the
value-identifier table never finalized, in which state (modelled from the
spec) every multi-use-candidate value conservatively gets a named
binding. -/
theorem c4_two_pass_protocol (c : Collab) (o : SerializerOptions) (rc : RealmCfg)
    (srcs : List Node) (sm : Bool) (n : Nat) :
    (o.inlineExpressions = false →
      Event.initPass1Ev ∉ (runInit c o rc srcs sm n).2.obs.trace ∧
      Event.pass1SerializeEv ∉ (runInit c o rc srcs sm n).2.obs.trace ∧
      Event.initPass2Ev ∉ (runInit c o rc srcs sm n).2.obs.trace ∧
      (∀ l a, (runInit c o rc srcs sm n).2.obs.pass2Args = some (l, a) →
        a.idState = IdState.initial)) ∧
    (o.inlineExpressions = true →
      (Event.pass2SerializeEv ∈ (runInit c o rc srcs sm n).2.obs.trace →
        Event.initPass1Ev ∈ (runInit c o rc srcs sm n).2.obs.trace ∧
        Event.pass1SerializeEv ∈ (runInit c o rc srcs sm n).2.obs.trace ∧
        Event.initPass2Ev ∈ (runInit c o rc srcs sm n).2.obs.trace) ∧
      (∀ l a, (runInit c o rc srcs sm n).2.obs.pass2Args = some (l, a) →
        a.idState = IdState.finalized)) ∧
    (∀ k, decideNaming IdState.initial k = NamingDecision.namedBinding) := by
  refine ⟨?_, ?_, fun k => rfl⟩ <;> intro hIE <;>
  cases hA : c.execAbrupt
  case false =>
    cases hRE : rc.reactEnabled <;> cases hMM : o.initializeMoreModules <;>
      by_cases hIT : c.indepThrows <;>
      simp [runInit, init, initAfterModules, pass2Phase, execPhase, mkSerArgs,
        hA, hRE, hMM, hIE, hIT] <;>
      split_ifs <;> simp_all
  case true =>
    cases hL : c.logCompletionThrows <;>
      simp [runInit, init, execPhase, hA, hL]
  case false =>
    cases hRE : rc.reactEnabled <;> cases hMM : o.initializeMoreModules <;>
      by_cases hIT : c.indepThrows <;>
      simp [runInit, init, initAfterModules, pass2Phase, execPhase, mkSerArgs,
        hA, hRE, hMM, hIE, hIT] <;>
      split_ifs <;> simp_all
  case true =>
    cases hL : c.logCompletionThrows <;>
      simp [runInit, init, execPhase, hA, hL]

/-- Witness for C4 on concrete runs with the option off and on. -/
theorem c4_two_pass_protocol_witness :
    Event.pass1SerializeEv ∉ (runInit collabBase optsNone rcNone [] false 0).2.obs.trace ∧
    Event.pass1SerializeEv ∈ (runInit collabBase optsAll rcAll [] false 0).2.obs.trace ∧
    decideNaming IdState.initial 5 = NamingDecision.namedBinding :=
  ⟨((c4_two_pass_protocol collabBase optsNone rcNone [] false 0).1 rfl).2.1,
   (((c4_two_pass_protocol collabBase optsAll rcAll [] false 0).2.1 rfl).1
      (by decide)).2.1,
   (c4_two_pass_protocol collabBase optsNone rcNone [] false 0).2.2 5⟩

/-- C8: the final-pass serializer is the lazy-objects variant exactly when
the lazyObjectsRuntime option is non-null, and whichever class is chosen
it is constructed from the one shared argument bundle — same visitor
outputs, same value-identifier table (finalized exactly when the two-pass
protocol ran), same options, same referentializer. -/
theorem pass2ArgsChar (c : Collab) (o : SerializerOptions) (rc : RealmCfg)
    (srcs : List Node) (sm : Bool) (n : Nat) :
    (runInit c o rc srcs sm n).2.obs.pass2Args = none ∨
    (runInit c o rc srcs sm n).2.obs.pass2Args
      = some (o.lazyObjectsRuntime.isSome,
          mkSerArgs (if o.inlineExpressions then IdState.finalized else IdState.initial)
            c o) := by
  cases hA : c.execAbrupt
  case false =>
    cases hRE : rc.reactEnabled <;> cases hMM : o.initializeMoreModules <;>
      cases hIE : o.inlineExpressions <;> by_cases hIT : c.indepThrows <;>
      simp [runInit, init, initAfterModules, pass2Phase, execPhase,
        hA, hRE, hMM, hIE, hIT] <;>
      split_ifs <;> simp_all
  case true =>
    cases hL : c.logCompletionThrows <;>
      simp [runInit, init, execPhase, hA, hL]

/-- C8: the final-pass serializer is the lazy-objects variant exactly when
the lazyObjectsRuntime option is non-null, and whichever class is chosen
it is constructed from the one shared argument bundle — same visitor
outputs, same value-identifier table (finalized exactly when the two-pass
protocol ran), same options, same referentializer. -/
theorem c8_serializer_selection (c : Collab) (o : SerializerOptions) (rc : RealmCfg)
    (srcs : List Node) (sm : Bool) (n : Nat) :
    ∀ l a, (runInit c o rc srcs sm n).2.obs.pass2Args = some (l, a) →
      ((l = true ↔ o.lazyObjectsRuntime ≠ none) ∧
       a = mkSerArgs a.idState c o ∧
       (a.idState = IdState.finalized ↔ o.inlineExpressions = true)) := by
  intro l a h
  rcases pass2ArgsChar c o rc srcs sm n with hc | hc
  · rw [hc] at h; exact absurd h (by simp)
  · rw [hc] at h
    simp only [Option.some.injEq, Prod.mk.injEq] at h
    obtain ⟨hl, ha⟩ := h
    subst hl
    subst ha
    refine ⟨?_, ?_, ?_⟩
    · cases hLZ : o.lazyObjectsRuntime <;> simp [hLZ]
    · cases hIE : o.inlineExpressions <;> simp [hIE, mkSerArgs]
    · cases hIE : o.inlineExpressions <;> simp [hIE, mkSerArgs]

/-- Witness for C8 on a concrete run with the lazy runtime selected. -/
theorem c8_serializer_selection_witness :
    ((true = true ↔ optsAll.lazyObjectsRuntime ≠ none) ∧
      mkSerArgs IdState.finalized collabBase optsAll
        = mkSerArgs (mkSerArgs IdState.finalized collabBase optsAll).idState
            collabBase optsAll ∧
      ((mkSerArgs IdState.finalized collabBase optsAll).idState = IdState.finalized
        ↔ optsAll.inlineExpressions = true)) :=
  c8_serializer_selection collabBase optsAll rcAll [] false 0 true
    (mkSerArgs IdState.finalized collabBase optsAll) (by simp [runInit, init,
      initAfterModules, pass2Phase, execPhase, collabBase, optsAll, rcAll])

/-- C6 counterexample: on a concrete run with every optional phase
enabled, the Initialize-More-Modules call happens strictly before heap
visitation, refuting the claimed placement after heap visitation and its
error checkpoint. -/
theorem c6_counterexample :
    Event.initMMEv ∈ (runInit collabBase optsAll rcAll [] false 10).2.obs.trace ∧
    Event.visitRootsEv ∈ (runInit collabBase optsAll rcAll [] false 10).2.obs.trace ∧
    isSubseqB [Event.visitRootsEv, Event.initMMEv]
      (runInit collabBase optsAll rcAll [] false 10).2.obs.trace = false ∧
    isSubseqB [Event.initMMEv, Event.visitRootsEv]
      (runInit collabBase optsAll rcAll [] false 10).2.obs.trace = true := by
  decide

/-- C6 (amended): the orchestrator performs its phases in the source's
order — execute, resolve modules, independence check, optional React
optimization, optional Initialize-More-Modules with its checkpoint, heap
visitation with its checkpoint, optional heap-graph build, optional pass-1
dry run, final serialization, emission: every run's call trace is a
subsequence of that one master order, so in particular the optional
Initialize-More-Modules phase runs before heap visitation (not after it)
and before the heap-graph build and the serialization passes; it runs only
when its option is enabled. -/
theorem c6_phase_order (c : Collab) (o : SerializerOptions) (rc : RealmCfg)
    (srcs : List Node) (sm : Bool) (n : Nat) :
    isSubseqB (runInit c o rc srcs sm n).2.obs.trace masterOrder = true ∧
    (Event.initMMEv ∈ (runInit c o rc srcs sm n).2.obs.trace →
      o.initializeMoreModules = true) := by
  cases hA : c.execAbrupt
  case false =>
    cases hRE : rc.reactEnabled <;> cases hMM : o.initializeMoreModules <;>
      cases hIE : o.inlineExpressions <;> by_cases hIT : c.indepThrows <;>
      cases hHG : o.heapGraphFormat <;>
      simp [runInit, init, initAfterModules, pass2Phase, execPhase,
        hA, hRE, hMM, hIE, hIT, hHG] <;>
      split_ifs <;> simp_all [isSubseqB, masterOrder]
  case true =>
    cases hL : c.logCompletionThrows <;>
      simp [runInit, init, execPhase, hA, hL, isSubseqB, masterOrder]

/-- Witness for C6 on a concrete all-options run. -/
theorem c6_phase_order_witness :
    isSubseqB (runInit collabBase optsAll rcAll [] false 10).2.obs.trace
      masterOrder = true ∧
    optsAll.initializeMoreModules = true :=
  ⟨(c6_phase_order collabBase optsAll rcAll [] false 10).1,
   (c6_phase_order collabBase optsAll rcAll [] false 10).2 (by decide)⟩

/-- C7: given that the serializer collaborators do not read the
heapGraphFormat option (per the spec the heap-graph exporter is an
independent read-only pass that does not affect the emitted program),
running the pipeline with heapGraphFormat set differs from the run with it
unset only in the heapGraph component of the result: emitted text, map,
React statistics, statistics and timing statistics all coincide, as do the
no-result and exception outcomes. -/
theorem c7_heap_graph_frame (c : Collab) (o : SerializerOptions) (rc : RealmCfg)
    (srcs : List Node) (sm : Bool) (n : Nat) (fmt : String)
    (hser : ∀ (lv : Bool) (a : SerArgs) (f1 f2 : Option String),
      c.serializeFn lv { a with options := { a.options with heapGraphFormat := f1 } }
        = c.serializeFn lv { a with options := { a.options with heapGraphFormat := f2 } }) :
    scrubResult (runInit c { o with heapGraphFormat := some fmt } rc srcs sm n).1
      = (runInit c { o with heapGraphFormat := none } rc srcs sm n).1 := by
  have key : ∀ i,
      c.serializeFn o.lazyObjectsRuntime.isSome
          (mkSerArgs i c { o with heapGraphFormat := some fmt })
        = c.serializeFn o.lazyObjectsRuntime.isSome
            (mkSerArgs i c { o with heapGraphFormat := none }) := by
    intro i
    have h := hser o.lazyObjectsRuntime.isSome (mkSerArgs i c o) (some fmt) none
    simpa [mkSerArgs] using h
  cases hA : c.execAbrupt
  case false =>
    cases hRE : rc.reactEnabled <;> cases hMM : o.initializeMoreModules <;>
      cases hIE : o.inlineExpressions <;> by_cases hIT : c.indepThrows <;>
      simp [runInit, init, initAfterModules, pass2Phase, execPhase, scrubResult,
        heapGraphVal, hA, hRE, hMM, hIE, hIT, key] <;>
      split_ifs <;> simp_all [scrubResult]
  case true =>
    cases hL : c.logCompletionThrows <;>
      simp [runInit, init, execPhase, scrubResult, hA, hL]

/-- Witness for C7 on a concrete run whose serializer output is
insensitive to the options record. -/
theorem c7_heap_graph_frame_witness :
    scrubResult (runInit collabBase { optsNone with heapGraphFormat := some "dot" }
        rcNone [] false 0).1
      = (runInit collabBase { optsNone with heapGraphFormat := none }
          rcNone [] false 0).1 :=
  c7_heap_graph_frame collabBase optsNone rcNone [] false 0 "dot"
    (fun _ _ _ _ => rfl)

end PrepackSerializer
